import Mathlib

/-!
# RnohReactNativeHarmonyGestureHandlerPackage

Embedding of the header
`tester/harmony/gesture_handler/src/main/cpp/RnohReactNativeHarmonyGestureHandlerPackage.h`.

The header holds one class, `rnoh::RnohReactNativeHarmonyGestureHandlerPackage`,
publicly derived from the host class `Package`.  The only member with a body is the
constructor

    RnohReactNativeHarmonyGestureHandlerPackage(Package::Context ctx) : Package(ctx) {}

The host header `RNOH/Package.h` is not part of the source, so the types `Package`
and `Package::Context` and the base constructor `Package(ctx)` are parameters of the
development.  A constructor call is modelled with explicit state passing: it starts
from a program state and either lets an exception escape or yields the constructed
value together with the state it leaves behind.
-/

namespace rnoh

/-- The class `RnohReactNativeHarmonyGestureHandlerPackage : public Package`.
The header declares no data member, so an object is made of its `Package` base
subobject and nothing more.  The host type `Package` is a parameter. -/
structure RnohReactNativeHarmonyGestureHandlerPackage (Package : Type) where
  /-- The base-class subobject. -/
  toPackage : Package
  deriving DecidableEq, Repr

namespace RnohReactNativeHarmonyGestureHandlerPackage

/-- The constructor
`RnohReactNativeHarmonyGestureHandlerPackage(Package::Context ctx) : Package(ctx) {}`.

`PackageCtor` is the base constructor `Package(ctx)` of the host: run from state `s`
it either throws (`.error e`) or returns the base subobject and the next state.
The parameter `ctx` is taken by value and handed on as it is; values of the
embedding are immutable, so the copy is the value itself.  After the
mem-initialiser the body `{}` runs, which has no statement. -/
def ctor {Context Package σ ε : Type}
    (PackageCtor : Context → σ → Except ε (Package × σ)) (ctx : Context) (s : σ) :
    Except ε (RnohReactNativeHarmonyGestureHandlerPackage Package × σ) :=
  match PackageCtor ctx s with
  | .error e => .error e
  | .ok (base, s1) => .ok ({ toPackage := base }, s1)

end RnohReactNativeHarmonyGestureHandlerPackage

/-! ## A concrete host, for evaluation -/

namespace Sample

/-- A sample host context: an identifier and a name. -/
structure Context where
  id : Nat
  name : String
  deriving DecidableEq, Repr

/-- A sample host `Package`: it stores the context it was built with. -/
structure Package where
  m_ctx : Context
  deriving DecidableEq, Repr

/-- A sample base constructor: it refuses the identifier `0`, and otherwise stores the
context and counts the construction in the state. -/
def PackageCtor (ctx : Context) (count : Nat) : Except String (Package × Nat) :=
  if ctx.id = 0 then .error "bad context" else .ok ({ m_ctx := ctx }, count + 1)

end Sample

/-! ## Theorems -/

/-- An object of the class is determined by its `Package` part: the class adds no
state of its own to the base subobject. -/
theorem RnohReactNativeHarmonyGestureHandlerPackage.eq_of_toPackage_eq {Package : Type}
    (a b : RnohReactNativeHarmonyGestureHandlerPackage Package)
    (h : a.toPackage = b.toPackage) : a = b := by
  cases a
  cases b
  cases h
  rfl

/-- On the sample host, constructing with context `(7, "gh")` from state `3` yields the
object whose base part stores that context, and the state the base constructor left. -/
theorem Sample.ctor_ok :
    RnohReactNativeHarmonyGestureHandlerPackage.ctor Sample.PackageCtor
        { id := 7, name := "gh" } 3
      = .ok ({ toPackage := { m_ctx := { id := 7, name := "gh" } } }, 4) := by
  rfl

/-- On the sample host, an exception thrown by the base constructor escapes the
constructor of the class unchanged. -/
theorem Sample.ctor_error :
    RnohReactNativeHarmonyGestureHandlerPackage.ctor Sample.PackageCtor
        { id := 0, name := "gh" } 3
      = .error "bad context" := by
  rfl

/-- C2: for every context `ctx` (and every host base constructor and start state),
constructing `RnohReactNativeHarmonyGestureHandlerPackage` with `ctx` runs the base
constructor `Package(ctx)` on exactly that `ctx` and does nothing else.  First, the
outcome of the constructor is the outcome of `Package(ctx)` with the returned base
subobject wrapped as the new object: same exception if it throws, same final state
otherwise.  Second, reading the `Package` part of the constructed object gives back
the outcome of `Package(ctx)` itself. -/
theorem RnohReactNativeHarmonyGestureHandlerPackage.ctor_initialises_Package
    {Context Package σ ε : Type}
    (PackageCtor : Context → σ → Except ε (Package × σ)) (ctx : Context) (s : σ) :
    RnohReactNativeHarmonyGestureHandlerPackage.ctor PackageCtor ctx s
        = (PackageCtor ctx s).map
            (fun r => (RnohReactNativeHarmonyGestureHandlerPackage.mk r.1, r.2))
      ∧ (RnohReactNativeHarmonyGestureHandlerPackage.ctor PackageCtor ctx s).map
            (fun r => (r.1.toPackage, r.2))
          = PackageCtor ctx s := by
  unfold RnohReactNativeHarmonyGestureHandlerPackage.ctor
  cases hres : PackageCtor ctx s with
  | error e => exact ⟨rfl, rfl⟩
  | ok r =>
    obtain ⟨base, s1⟩ := r
    exact ⟨rfl, rfl⟩

end rnoh
